import Mathlib

/-!
Shallow embedding of the ghostbuster rating engine and its session/refresh
manager, translated from the TypeScript sources:

  * `src/types/index.ts`        — the enumerations and data records
  * `src/utils/ratingEngine.ts` — the pure rating computation
  * `src/services/weatherService.ts` — the month-band `calculateSeason`
  * the environmental service module — the day-precise `calculateSeason`
  * `src/services/realTimeService.ts` — sessions, fallback cache, refresh

JavaScript numbers are modelled as exact rationals (ℚ); every quantity the
claims touch is integer-valued or far from a rounding tie, so exact
arithmetic agrees with IEEE doubles on them.  `Math.round` is round half
toward +∞, i.e. `⌊x + 1/2⌋`.  `new Date()` / `Date.now()` appear as an
explicit clock argument `now : ℤ` (milliseconds).  The JS idiom
`table[key] || d` (undefined and 0 are both falsy) is `jsFalsyOr`.
-/

/-- JS `Math.round`: round half toward positive infinity. -/
def jsRound (x : ℚ) : ℤ := ⌊x + 1/2⌋

/-- JS `v || d` on a possibly-undefined number: `undefined` and `0` are falsy. -/
def jsFalsyOr (v : Option ℚ) (d : ℚ) : ℚ :=
  match v with
  | none => d
  | some x => if x = 0 then d else x

/-- JS `s || d` on a string: the empty string is falsy. -/
def jsFalsyOrStr (s : String) (d : String) : String :=
  if s = "" then d else s

/-- `enum LocationType` from `src/types/index.ts`. -/
inductive LocationType where
  | castle
  | graveyard
  | abandoned_building
  | forest
  | hospital
  | fort
  | regular
deriving DecidableEq, Repr

/-- `enum WeatherCondition` from `src/types/index.ts`. -/
inductive WeatherCondition where
  | clear
  | cloudy
  | rainy
  | foggy
  | stormy
deriving DecidableEq, Repr

/-- `enum Season` from `src/types/index.ts`. -/
inductive Season where
  | spring
  | summer
  | autumn
  | winter
deriving DecidableEq, Repr

/-- `interface WeatherData` from `src/types/index.ts`. -/
structure WeatherData where
  condition : WeatherCondition
  temperature : ℚ
  visibility : ℚ
  precipitation : Bool
  humidity : ℚ
  windSpeed : ℚ
deriving DecidableEq, Repr

/-- `interface TimeData` from `src/types/index.ts` (`localTime` optional, unused here). -/
structure TimeData where
  hour : ℤ
  isNighttime : Bool
  timezone : String
deriving DecidableEq, Repr

/-- `interface EnvironmentalFactors` from `src/types/index.ts`. -/
structure EnvironmentalFactors where
  weather : WeatherData
  time : TimeData
  season : Season
deriving DecidableEq, Repr

/-- A nearby point of interest, from `interface Location`. -/
structure NearbyPOI where
  name : String
  poiType : String
  distance : ℚ
deriving DecidableEq, Repr

/-- Geographic coordinates. -/
structure Coordinates where
  latitude : ℚ
  longitude : ℚ
deriving DecidableEq, Repr

/-- `interface Location` from `src/types/index.ts`. -/
structure Location where
  name : String
  address : String
  coordinates : Coordinates
  type : LocationType
  nearbyPOIs : List NearbyPOI
deriving DecidableEq, Repr

/-- The `factors` record inside `HauntedRating`: the four rounded raw scores. -/
structure RatingFactors where
  locationScore : ℤ
  weatherScore : ℤ
  timeScore : ℤ
  seasonScore : ℤ
deriving DecidableEq, Repr

/-- `interface FactorBreakdown`.  `description` is `Option String` because
the location-description record lookup can produce JS `undefined`. -/
structure FactorBreakdown where
  factor : String
  weight : ℚ
  contribution : ℤ
  description : Option String
deriving DecidableEq, Repr

/-- `interface HauntedRating`; `calculatedAt` is a millisecond timestamp. -/
structure HauntedRating where
  overallScore : ℤ
  factors : RatingFactors
  breakdown : List FactorBreakdown
  calculatedAt : ℤ
deriving DecidableEq, Repr

/-! ## `src/utils/ratingEngine.ts` -/

/-- `FACTOR_WEIGHTS.LOCATION` (40%). -/
def FACTOR_WEIGHTS_LOCATION : ℚ := 0.4

/-- `FACTOR_WEIGHTS.WEATHER` (25%). -/
def FACTOR_WEIGHTS_WEATHER : ℚ := 0.25

/-- `FACTOR_WEIGHTS.TIME` (25%). -/
def FACTOR_WEIGHTS_TIME : ℚ := 0.25

/-- `FACTOR_WEIGHTS.SEASON` (10%). -/
def FACTOR_WEIGHTS_SEASON : ℚ := 0.1

/-- The `LOCATION_SCORES` record.  The record literal in the source lists
entries for castle, graveyard, abandoned_building, fort and regular only;
looking up `forest` or `hospital` yields `undefined` (hence `none`). -/
def LOCATION_SCORES : LocationType → Option ℚ
  | .castle => some 90
  | .graveyard => some 85
  | .abandoned_building => some 80
  | .fort => some 70
  | .regular => some 10
  | .forest => none
  | .hospital => none

/-- The `WEATHER_SCORES` record (total over `WeatherCondition`). -/
def WEATHER_SCORES : WeatherCondition → Option ℚ
  | .foggy => some 90
  | .stormy => some 80
  | .rainy => some 70
  | .cloudy => some 40
  | .clear => some 10

/-- The `SEASON_SCORES` record (total over `Season`). -/
def SEASON_SCORES : Season → Option ℚ
  | .autumn => some 80
  | .winter => some 70
  | .spring => some 30
  | .summer => some 20

/-- `getLocationScore`: `LOCATION_SCORES[locationType] || 10`. -/
def getLocationScore (locationType : LocationType) : ℚ :=
  jsFalsyOr (LOCATION_SCORES locationType) 10

/-- `getWeatherScore`: base condition score plus additive temperature,
visibility and precipitation modifiers, clamped to at most 100. -/
def getWeatherScore (weather : WeatherData) : ℚ :=
  let baseScore := jsFalsyOr (WEATHER_SCORES weather.condition) 10
  let baseScore :=
    if weather.temperature < 10 then baseScore + 10
    else if weather.temperature < 20 then baseScore + 5
    else baseScore
  let baseScore :=
    if weather.visibility < 1000 then baseScore + 15
    else if weather.visibility < 5000 then baseScore + 8
    else baseScore
  let baseScore := if weather.precipitation then baseScore + 5 else baseScore
  min 100 baseScore

/-- `getTimeScore`: banded by hour, the if-chain evaluated top to bottom. -/
def getTimeScore (time : TimeData) : ℚ :=
  let hour := time.hour
  if 0 ≤ hour ∧ hour < 3 then 100
  else if 21 ≤ hour ∨ hour < 1 then 80
  else if 18 ≤ hour ∧ hour < 21 then 60
  else if 3 ≤ hour ∧ hour < 6 then 70
  else 10

/-- `getSeasonScore`: `SEASON_SCORES[season] || 20`. -/
def getSeasonScore (season : Season) : ℚ :=
  jsFalsyOr (SEASON_SCORES season) 20

/-- `calculateHauntedRating`.  The source stamps the result with
`new Date()`; that clock reading is the explicit argument `now`. -/
def calculateHauntedRating (location : Location)
    (environmental : EnvironmentalFactors) (now : ℤ) : HauntedRating :=
  let locationScore := getLocationScore location.type
  let weatherScore := getWeatherScore environmental.weather
  let timeScore := getTimeScore environmental.time
  let seasonScore := getSeasonScore environmental.season
  let weightedLocationScore := locationScore * FACTOR_WEIGHTS_LOCATION
  let weightedWeatherScore := weatherScore * FACTOR_WEIGHTS_WEATHER
  let weightedTimeScore := timeScore * FACTOR_WEIGHTS_TIME
  let weightedSeasonScore := seasonScore * FACTOR_WEIGHTS_SEASON
  let overallScore := min 100 (jsRound
    (weightedLocationScore + weightedWeatherScore +
     weightedTimeScore + weightedSeasonScore))
  { overallScore := overallScore
    factors :=
      { locationScore := jsRound locationScore
        weatherScore := jsRound weatherScore
        timeScore := jsRound timeScore
        seasonScore := jsRound seasonScore }
    breakdown := []
    calculatedAt := now }

/-- `getLocationDescription`.  The `descriptions` record literal again lacks
`forest` and `hospital`, so those lookups are `undefined` (`none`). -/
def getLocationDescription : LocationType → Option String
  | .castle => some "Ancient castles are steeped in history and countless tales of tragedy, making them prime locations for supernatural activity. This location type has extremely high paranormal potential."
  | .graveyard => some "Graveyards and cemeteries are traditional gathering places for spirits, with strong connections to the afterlife. This location type has extremely high paranormal potential."
  | .abandoned_building => some "Abandoned structures often harbor residual energy from past inhabitants and traumatic events. This location type has very high paranormal potential."
  | .fort => some "Military fortifications carry the weight of battles fought and lives lost, creating powerful spiritual imprints. This location type has high paranormal potential."
  | .regular => some "Regular locations have minimal supernatural associations, though spirits can manifest anywhere. This location type has limited paranormal potential."
  | .forest => none
  | .hospital => none

/-- The `conditionDescriptions` record inside `getWeatherDescription`. -/
def conditionDescriptions : WeatherCondition → String
  | .foggy => "Dense fog creates an otherworldly atmosphere that spirits find conducive to manifestation."
  | .stormy => "Electrical storms generate energy that can amplify supernatural phenomena and spirit activity."
  | .rainy => "Rain and moisture create atmospheric conditions that enhance spiritual sensitivity."
  | .cloudy => "Overcast skies provide a neutral backdrop with some atmospheric enhancement."
  | .clear => "Clear weather offers minimal atmospheric enhancement for paranormal activity."

/-- `getWeatherDescription`: the base sentence plus appended context clauses. -/
def getWeatherDescription (weather : WeatherData) : String :=
  let description := conditionDescriptions weather.condition
  let description :=
    if weather.temperature < 10 then
      description ++ " The frigid temperature adds to the eerie atmosphere."
    else if weather.temperature < 20 then
      description ++ " The cold air enhances the supernatural ambiance."
    else description
  let description :=
    if weather.visibility < 1000 then
      description ++ " Extremely poor visibility creates perfect conditions for ghostly encounters."
    else if weather.visibility < 5000 then
      description ++ " Limited visibility adds mystery to the environment."
    else description
  if weather.precipitation then
    description ++ " Active precipitation heightens the supernatural atmosphere."
  else description

/-- `getTimeDescription`. -/
def getTimeDescription (time : TimeData) : String :=
  let hour := time.hour
  if 0 ≤ hour ∧ hour < 3 then
    "The witching hours between midnight and 3 AM are when the veil between worlds is thinnest, allowing maximum spiritual activity."
  else if 21 ≤ hour ∨ hour < 1 then
    "Late evening hours create an atmosphere of mystery and heightened supernatural sensitivity."
  else if 18 ≤ hour ∧ hour < 21 then
    "Twilight hours mark the transition from day to night, a time when spirits become more active."
  else if 3 ≤ hour ∧ hour < 6 then
    "The pre-dawn hours maintain some of the night\x27s supernatural energy as darkness begins to fade."
  else
    "Daylight hours generally suppress supernatural activity, though determined spirits may still manifest."

/-- `getSeasonDescription`. -/
def getSeasonDescription : Season → String
  | .autumn => "Autumn\x27s association with death and decay, plus proximity to Halloween, creates peak conditions for supernatural encounters."
  | .winter => "Winter\x27s long nights and harsh conditions provide extended periods of darkness favored by spirits."
  | .spring => "Spring represents renewal and life, which tends to diminish supernatural activity as nature awakens."
  | .summer => "Summer\x27s warmth and extended daylight hours are least conducive to paranormal phenomena."

/-- `generateFactorBreakdown`: four entries pushed in fixed order, each
`contribution` computed as `Math.round(roundedRawScore * weight)`. -/
def generateFactorBreakdown (location : Location)
    (environmental : EnvironmentalFactors) (rating : HauntedRating) :
    List FactorBreakdown :=
  [ { factor := "Location Type"
      weight := FACTOR_WEIGHTS_LOCATION
      contribution := jsRound ((rating.factors.locationScore : ℚ) * FACTOR_WEIGHTS_LOCATION)
      description := getLocationDescription location.type }
  , { factor := "Weather Conditions"
      weight := FACTOR_WEIGHTS_WEATHER
      contribution := jsRound ((rating.factors.weatherScore : ℚ) * FACTOR_WEIGHTS_WEATHER)
      description := some (getWeatherDescription environmental.weather) }
  , { factor := "Time of Day"
      weight := FACTOR_WEIGHTS_TIME
      contribution := jsRound ((rating.factors.timeScore : ℚ) * FACTOR_WEIGHTS_TIME)
      description := some (getTimeDescription environmental.time) }
  , { factor := "Season"
      weight := FACTOR_WEIGHTS_SEASON
      contribution := jsRound ((rating.factors.seasonScore : ℚ) * FACTOR_WEIGHTS_SEASON)
      description := some (getSeasonDescription environmental.season) } ]

/-- `calculateHauntedRatingWithBreakdown`. -/
def calculateHauntedRatingWithBreakdown (location : Location)
    (environmental : EnvironmentalFactors) (now : ℤ) : HauntedRating :=
  let rating := calculateHauntedRating location environmental now
  { rating with breakdown := generateFactorBreakdown location environmental rating }

/-- `getRatingExplanation`: banded lookup on the final integer score. -/
def getRatingExplanation (overallScore : ℤ) : String :=
  if 90 ≤ overallScore then
    "Extremely haunted - This location shows maximum paranormal potential with multiple factors aligning for intense supernatural activity."
  else if 75 ≤ overallScore then
    "Highly haunted - Strong paranormal indicators suggest frequent supernatural encounters are likely at this location."
  else if 60 ≤ overallScore then
    "Moderately haunted - Several factors contribute to notable paranormal potential with possible spirit manifestations."
  else if 40 ≤ overallScore then
    "Mildly haunted - Some paranormal indicators present, though supernatural activity may be sporadic or subtle."
  else if 25 ≤ overallScore then
    "Low paranormal activity - Limited supernatural potential with minimal contributing factors."
  else
    "Minimal haunting - Very low paranormal potential with few factors supporting supernatural activity."

/-! ## The two `calculateSeason` implementations -/

/-- A JS `Date` as the season code reads it: `getMonth()` (0–11 on real
dates) and `getDate()` (1–31 on real dates).  Both functions are total over
all integers, so no range constraint is imposed here. -/
structure JSDate where
  month : ℤ
  day : ℤ
deriving DecidableEq, Repr

namespace weatherService

/-- The month-band `calculateSeason` of `src/services/weatherService.ts`. -/
def calculateSeason (date : JSDate) (latitude : ℚ) : Season :=
  let month := date.month
  let isNorthernHemisphere := latitude ≥ 0
  if isNorthernHemisphere then
    if 2 ≤ month ∧ month ≤ 4 then Season.spring
    else if 5 ≤ month ∧ month ≤ 7 then Season.summer
    else if 8 ≤ month ∧ month ≤ 10 then Season.autumn
    else Season.winter
  else
    if 2 ≤ month ∧ month ≤ 4 then Season.autumn
    else if 5 ≤ month ∧ month ≤ 7 then Season.winter
    else if 8 ≤ month ∧ month ≤ 10 then Season.spring
    else Season.summer

end weatherService

namespace environmentalService

/-- The inner `getSeasonForNorthern` closure of the environmental service's
day-precise `calculateSeason`. -/
def getSeasonForNorthern (month day : ℤ) : Season :=
  if month < 2 ∨ (month = 2 ∧ day < 20) then Season.winter
  else if month < 5 ∨ (month = 5 ∧ day < 21) then Season.spring
  else if month < 8 ∨ (month = 8 ∧ day < 23) then Season.summer
  else if month < 11 ∨ (month = 11 ∧ day < 21) then Season.autumn
  else Season.winter

/-- The exported day-precise `calculateSeason`: Northern result directly,
Southern result rotated through the explicit `switch`. -/
def calculateSeason (date : JSDate) (latitude : ℚ) : Season :=
  let month := date.month
  let day := date.day
  let isNorthernHemisphere := latitude ≥ 0
  if isNorthernHemisphere then
    getSeasonForNorthern month day
  else
    match getSeasonForNorthern month day with
    | Season.spring => Season.autumn
    | Season.summer => Season.winter
    | Season.autumn => Season.spring
    | Season.winter => Season.summer

end environmentalService

/-- Rotation of the season cycle by two positions (Spring↔Autumn,
Summer↔Winter), the spec's phrasing of the hemisphere law. -/
def rotateTwoSeasons : Season → Season
  | Season.spring => Season.autumn
  | Season.summer => Season.winter
  | Season.autumn => Season.spring
  | Season.winter => Season.summer

/-! ## `src/services/realTimeService.ts`

Timers, `Map`s and callbacks become explicit data: the two module-level
`Map`s are association lists inside an `RTState`, a session records which
callbacks were supplied as `Bool` flags, and an invocation of a callback is
an emitted `CallbackEvent`.  `Date.now()` is the explicit `now` argument.
The `await calculateHauntedRating(...)` API call either resolves with a
rating or rejects; that outcome is the explicit `RefreshOutcome` argument.
-/

namespace realTimeService

/-- `AUTO_REFRESH_INTERVAL`: 30 minutes in milliseconds. -/
def AUTO_REFRESH_INTERVAL : ℤ := 30 * 60 * 1000

/-- `CACHE_DURATION`: 2 hours in milliseconds (fallback cache). -/
def CACHE_DURATION : ℤ := 2 * 60 * 60 * 1000

/-- `interface CacheEntry<T>`. -/
structure CacheEntry (α : Type) where
  data : α
  timestamp : ℤ
  expiresAt : ℤ
deriving DecidableEq, Repr

/-- `interface ActiveSession`.  The optional callback fields and the timer
handle are modelled by presence flags. -/
structure ActiveSession where
  location : Location
  lastUpdate : ℤ
  hasRefreshTimer : Bool
  hasOnRatingUpdate : Bool
  hasOnEnvironmentalUpdate : Bool
  hasOnError : Bool
deriving DecidableEq, Repr

/-- An observable callback invocation made by the service. -/
inductive CallbackEvent where
  | onRatingUpdate (rating : HauntedRating)
  | onError (message : String)
deriving DecidableEq, Repr

/-- The module-level mutable state: `activeSessions` and `ratingCache`
(the `environmentalCache` is never written by the refresh path modelled
here and is omitted). -/
structure RTState where
  activeSessions : List (String × ActiveSession)
  ratingCache : List (String × CacheEntry HauntedRating)
deriving DecidableEq, Repr

/-- `Map.get`. -/
def mapGet {α : Type} : List (String × α) → String → Option α
  | [], _ => none
  | (k, v) :: rest, key => if k = key then some v else mapGet rest key

/-- `Map.set` (replace in place or append). -/
def mapSet {α : Type} : List (String × α) → String → α → List (String × α)
  | [], key, v => [(key, v)]
  | (k, w) :: rest, key, v =>
      if k = key then (key, v) :: rest else (k, w) :: mapSet rest key v

/-- `Map.delete`. -/
def mapDelete {α : Type} : List (String × α) → String → List (String × α)
  | [], _ => []
  | (k, w) :: rest, key =>
      if k = key then rest else (k, w) :: mapDelete rest key

/-- `toFixed(4)`, reduced to what keying needs: the coordinate rounded to
four decimal places (represented by the scaled integer rendered as a
string; the exact decimal formatting is immaterial to key equality). -/
def toFixed4 (q : ℚ) : String := toString (jsRound (q * 10000))

/-- `getSessionKey`. -/
def getSessionKey (location : Location) : String :=
  "session_" ++ toFixed4 location.coordinates.latitude ++ "_" ++
    toFixed4 location.coordinates.longitude

/-- `getCacheKey`. -/
def getCacheKey (location : Location) : String :=
  "cache_" ++ toFixed4 location.coordinates.latitude ++ "_" ++
    toFixed4 location.coordinates.longitude

/-- `isCacheValid`: `Date.now() < entry.expiresAt`. -/
def isCacheValid {α : Type} (now : ℤ) (entry : CacheEntry α) : Prop :=
  now < entry.expiresAt

instance {α : Type} (now : ℤ) (entry : CacheEntry α) :
    Decidable (isCacheValid now entry) := by
  unfold isCacheValid; infer_instance

/-- `getCachedData`: returns the cached value when present and valid, and
deletes an expired entry as a side effect (second component = the cache
after the call). -/
def getCachedData {α : Type} (cache : List (String × CacheEntry α))
    (key : String) (now : ℤ) :
    Option α × List (String × CacheEntry α) :=
  match mapGet cache key with
  | some cached =>
      if isCacheValid now cached then (some cached.data, cache)
      else (none, mapDelete cache key)
  | none => (none, cache)

/-- `cacheData`: store with `expiresAt = now + CACHE_DURATION`. -/
def cacheData {α : Type} (cache : List (String × CacheEntry α))
    (key : String) (data : α) (now : ℤ) : List (String × CacheEntry α) :=
  mapSet cache key { data := data, timestamp := now,
                     expiresAt := now + CACHE_DURATION }

/-- The outcome of the awaited rating API call inside a refresh. -/
inductive RefreshOutcome where
  | success (rating : HauntedRating)
  | failure (message : String)
deriving DecidableEq, Repr

/-- `refreshSessionData`: the body of a scheduled refresh tick.  Returns
the new module state and the callback invocations it made, in order. -/
def refreshSessionData (st : RTState) (sessionKey : String)
    (outcome : RefreshOutcome) (now : ℤ) : RTState × List CallbackEvent :=
  match mapGet st.activeSessions sessionKey with
  | none => (st, [])
  | some session =>
    let cacheKey := getCacheKey session.location
    match outcome with
    | RefreshOutcome.success rating =>
        let session := { session with lastUpdate := now }
        let ratingCache := cacheData st.ratingCache cacheKey rating now
        let events :=
          if session.hasOnRatingUpdate then
            [CallbackEvent.onRatingUpdate rating]
          else []
        ({ activeSessions := mapSet st.activeSessions sessionKey session
           ratingCache := ratingCache }, events)
    | RefreshOutcome.failure message =>
        let fetched := getCachedData st.ratingCache cacheKey now
        let events :=
          match fetched.1 with
          | some cachedRating =>
              if session.hasOnRatingUpdate then
                [CallbackEvent.onRatingUpdate cachedRating]
              else if session.hasOnError then
                [CallbackEvent.onError
                  ("Failed to refresh data: " ++
                    jsFalsyOrStr message "Unknown error")]
              else []
          | none =>
              if session.hasOnError then
                [CallbackEvent.onError
                  ("Failed to refresh data: " ++
                    jsFalsyOrStr message "Unknown error")]
              else []
        ({ st with ratingCache := fetched.2 }, events)

/-- `stopAutoRefresh`: clears the timer and removes the session, but only
when the session exists and holds a timer handle. -/
def stopAutoRefresh (st : RTState) (sessionKey : String) : RTState :=
  match mapGet st.activeSessions sessionKey with
  | some session =>
      if session.hasRefreshTimer then
        { st with activeSessions := mapDelete st.activeSessions sessionKey }
      else st
  | none => st

/-- `startAutoRefresh`: tear down any existing session for the key, then
register a fresh one with a live timer. -/
def startAutoRefresh (st : RTState) (location : Location)
    (hasOnRatingUpdate hasOnEnvironmentalUpdate hasOnError : Bool)
    (now : ℤ) : RTState × String :=
  let sessionKey := getSessionKey location
  let st := stopAutoRefresh st sessionKey
  let session : ActiveSession :=
    { location := location
      lastUpdate := now
      hasRefreshTimer := true
      hasOnRatingUpdate := hasOnRatingUpdate
      hasOnEnvironmentalUpdate := hasOnEnvironmentalUpdate
      hasOnError := hasOnError }
  ({ st with activeSessions := mapSet st.activeSessions sessionKey session },
   sessionKey)

/-- `getTimeUntilNextRefresh`. -/
def getTimeUntilNextRefresh (st : RTState) (sessionKey : String)
    (now : ℤ) : Option ℤ :=
  match mapGet st.activeSessions sessionKey with
  | none => none
  | some session =>
      some (max 0 (session.lastUpdate + AUTO_REFRESH_INTERVAL - now))

end realTimeService

/-! ## Test fixtures (the spec's scenarios) -/

/-- Scenario 1 location: a Regular location. -/
def scenario1Location : Location :=
  { name := "Main Street Cafe"
    address := "1 Main St"
    coordinates := { latitude := 0, longitude := 0 }
    type := LocationType.regular
    nearbyPOIs := [] }

/-- Scenario 1 environment: Clear, 25°C, visibility 15000, no
precipitation, noon, Summer. -/
def scenario1Env : EnvironmentalFactors :=
  { weather :=
      { condition := WeatherCondition.clear
        temperature := 25
        visibility := 15000
        precipitation := false
        humidity := 50
        windSpeed := 5 }
    time := { hour := 12, isNighttime := false, timezone := "UTC+0" }
    season := Season.summer }

/-- Scenario 2 location: a Castle. -/
def scenario2Location : Location :=
  { name := "Old Castle"
    address := "1 Hill Rd"
    coordinates := { latitude := 50, longitude := 10 }
    type := LocationType.castle
    nearbyPOIs := [] }

/-- Scenario 2 environment: Foggy, 5°C, visibility 500, precipitation,
1 AM, Autumn. -/
def scenario2Env : EnvironmentalFactors :=
  { weather :=
      { condition := WeatherCondition.foggy
        temperature := 5
        visibility := 500
        precipitation := true
        humidity := 90
        windSpeed := 10 }
    time := { hour := 1, isNighttime := true, timezone := "UTC+0" }
    season := Season.autumn }

/-! ## Helper lemmas -/

/-- A nonnegative argument rounds to a nonnegative integer. -/
lemma jsRound_nonneg {x : ℚ} (hx : 0 ≤ x) : 0 ≤ jsRound x := by
  unfold jsRound
  exact Int.le_floor.mpr (by push_cast; linarith)

/-- Every location score lies between 10 and 90. -/
lemma getLocationScore_bounds (t : LocationType) :
    10 ≤ getLocationScore t ∧ getLocationScore t ≤ 90 := by
  cases t <;> norm_num [getLocationScore, jsFalsyOr, LOCATION_SCORES]

/-- The base weather condition score is between 10 and 90. -/
lemma weatherBase_bounds (c : WeatherCondition) :
    10 ≤ jsFalsyOr (WEATHER_SCORES c) 10 ∧ jsFalsyOr (WEATHER_SCORES c) 10 ≤ 90 := by
  cases c <;> norm_num [jsFalsyOr, WEATHER_SCORES]

/-- The weather score is clamped into `[0, 100]` (in fact it is ≥ 10). -/
lemma getWeatherScore_bounds (w : WeatherData) :
    0 ≤ getWeatherScore w ∧ getWeatherScore w ≤ 100 := by
  obtain ⟨hb, -⟩ := weatherBase_bounds w.condition
  simp only [getWeatherScore]
  refine ⟨le_min (by norm_num) ?_, min_le_left _ _⟩
  split_ifs <;> linarith

/-- The time score is one of the five band values, hence in `[10, 100]`. -/
lemma getTimeScore_bounds (time : TimeData) :
    10 ≤ getTimeScore time ∧ getTimeScore time ≤ 100 := by
  simp only [getTimeScore]
  split_ifs <;> norm_num

/-- Every season score lies between 20 and 80. -/
lemma getSeasonScore_bounds (s : Season) :
    20 ≤ getSeasonScore s ∧ getSeasonScore s ≤ 80 := by
  cases s <;> norm_num [getSeasonScore, jsFalsyOr, SEASON_SCORES]

/-! ## Claims -/

/-- C1: on the Regular/Clear/noon/Summer input of Scenario 1 the raw factor
scores are location 10, weather 10, time 10, season 20, the `factors`
record carries exactly those values, and the overall score is 11 — the
weights are applied to the unrounded raw scores and the weighted sum
`10·0.4 + 10·0.25 + 10·0.25 + 20·0.1 = 11` is rounded once at the end. -/
theorem C1_scenario1_rating (now : ℤ) :
    getLocationScore scenario1Location.type = 10 ∧
    getWeatherScore scenario1Env.weather = 10 ∧
    getTimeScore scenario1Env.time = 10 ∧
    getSeasonScore scenario1Env.season = 20 ∧
    (calculateHauntedRating scenario1Location scenario1Env now).factors =
      { locationScore := 10, weatherScore := 10, timeScore := 10, seasonScore := 20 } ∧
    (calculateHauntedRating scenario1Location scenario1Env now).overallScore = 11 := by
  norm_num [calculateHauntedRating, getLocationScore, getWeatherScore, getTimeScore,
    getSeasonScore, jsRound, jsFalsyOr, LOCATION_SCORES, WEATHER_SCORES, SEASON_SCORES,
    FACTOR_WEIGHTS_LOCATION, FACTOR_WEIGHTS_WEATHER, FACTOR_WEIGHTS_TIME,
    FACTOR_WEIGHTS_SEASON, scenario1Location, scenario1Env, RatingFactors.mk.injEq]

/-- C2: any time record with hour 0 scores 100 — the witching-hour band
`[0,3)` is reached first in the if-chain and takes priority over the
late-evening band `hour ≥ 21 ∨ hour < 1`, which also matches hour 0. -/
theorem C2_hour_zero_witching (t : TimeData) (h : t.hour = 0) :
    getTimeScore t = 100 := by
  simp only [getTimeScore, h]
  norm_num

/-- Witness for C2 at the concrete midnight input. -/
theorem C2_hour_zero_witching_witness :
    getTimeScore { hour := 0, isNighttime := true, timezone := "UTC+0" } = 100 :=
  C2_hour_zero_witching { hour := 0, isNighttime := true, timezone := "UTC+0" } rfl

/-- C3: on the Castle/Foggy/1 AM/Autumn input of Scenario 2 the raw scores
are location 90, weather min(100, 90+10+15+5) = 100 (clamped from 120),
time 100, season 80, and the overall score is
`round(90·0.4 + 100·0.25 + 100·0.25 + 80·0.1) = 94`. -/
theorem C3_scenario2_rating (now : ℤ) :
    getLocationScore scenario2Location.type = 90 ∧
    getWeatherScore scenario2Env.weather = 100 ∧
    getWeatherScore scenario2Env.weather = min 100 (90 + 10 + 15 + 5) ∧
    getTimeScore scenario2Env.time = 100 ∧
    getSeasonScore scenario2Env.season = 80 ∧
    (calculateHauntedRating scenario2Location scenario2Env now).overallScore = 94 := by
  norm_num [calculateHauntedRating, getLocationScore, getWeatherScore, getTimeScore,
    getSeasonScore, jsRound, jsFalsyOr, LOCATION_SCORES, WEATHER_SCORES, SEASON_SCORES,
    FACTOR_WEIGHTS_LOCATION, FACTOR_WEIGHTS_WEATHER, FACTOR_WEIGHTS_TIME,
    FACTOR_WEIGHTS_SEASON, scenario2Location, scenario2Env]

/-- C4: for a fixed `(location, environmental)` pair, two calls of
`calculateHauntedRating` — i.e. calls at two arbitrary clock readings —
return the same `overallScore` and the same `factors`; only `calculatedAt`
depends on the clock. -/
theorem C4_determinism (location : Location) (environmental : EnvironmentalFactors)
    (t₁ t₂ : ℤ) :
    (calculateHauntedRating location environmental t₁).overallScore =
      (calculateHauntedRating location environmental t₂).overallScore ∧
    (calculateHauntedRating location environmental t₁).factors =
      (calculateHauntedRating location environmental t₂).factors := by
  exact ⟨rfl, rfl⟩

/-- C5: for every valid input (any location type, weather condition and
season from the enumerations, any rational temperature and visibility,
hour between 0 and 23) the overall score lies in `[0, 100]` and each of
the four raw factor scores lies in `[0, 100]` after clamping. -/
theorem C5_bounds (location : Location) (environmental : EnvironmentalFactors)
    (now : ℤ) (h0 : 0 ≤ environmental.time.hour)
    (h23 : environmental.time.hour ≤ 23) :
    (0 ≤ (calculateHauntedRating location environmental now).overallScore ∧
      (calculateHauntedRating location environmental now).overallScore ≤ 100) ∧
    (0 ≤ getLocationScore location.type ∧ getLocationScore location.type ≤ 100) ∧
    (0 ≤ getWeatherScore environmental.weather ∧
      getWeatherScore environmental.weather ≤ 100) ∧
    (0 ≤ getTimeScore environmental.time ∧ getTimeScore environmental.time ≤ 100) ∧
    (0 ≤ getSeasonScore environmental.season ∧
      getSeasonScore environmental.season ≤ 100) := by
  obtain ⟨hl, hl'⟩ := getLocationScore_bounds location.type
  obtain ⟨hw, hw'⟩ := getWeatherScore_bounds environmental.weather
  obtain ⟨ht, ht'⟩ := getTimeScore_bounds environmental.time
  obtain ⟨hs, hs'⟩ := getSeasonScore_bounds environmental.season
  refine ⟨⟨?_, ?_⟩, ⟨by linarith, by linarith⟩, ⟨by linarith, by linarith⟩,
    ⟨by linarith, by linarith⟩, ⟨by linarith, by linarith⟩⟩
  · simp only [calculateHauntedRating]
    refine le_min (by norm_num) (jsRound_nonneg ?_)
    have : (0:ℚ) ≤ getLocationScore location.type * FACTOR_WEIGHTS_LOCATION +
        getWeatherScore environmental.weather * FACTOR_WEIGHTS_WEATHER +
        getTimeScore environmental.time * FACTOR_WEIGHTS_TIME +
        getSeasonScore environmental.season * FACTOR_WEIGHTS_SEASON := by
      unfold FACTOR_WEIGHTS_LOCATION FACTOR_WEIGHTS_WEATHER FACTOR_WEIGHTS_TIME
        FACTOR_WEIGHTS_SEASON
      norm_num
      nlinarith
    exact this
  · simp only [calculateHauntedRating]
    exact min_le_left _ _

/-- Witness for C5 at the Scenario 1 input and clock 0. -/
theorem C5_bounds_witness :
    (0 ≤ (calculateHauntedRating scenario1Location scenario1Env 0).overallScore ∧
      (calculateHauntedRating scenario1Location scenario1Env 0).overallScore ≤ 100) ∧
    (0 ≤ getLocationScore scenario1Location.type ∧
      getLocationScore scenario1Location.type ≤ 100) ∧
    (0 ≤ getWeatherScore scenario1Env.weather ∧
      getWeatherScore scenario1Env.weather ≤ 100) ∧
    (0 ≤ getTimeScore scenario1Env.time ∧ getTimeScore scenario1Env.time ≤ 100) ∧
    (0 ≤ getSeasonScore scenario1Env.season ∧
      getSeasonScore scenario1Env.season ≤ 100) :=
  C5_bounds scenario1Location scenario1Env 0 (by norm_num [scenario1Env])
    (by norm_num [scenario1Env])

/-- C6: for any date, a negative latitude yields the season of any
nonnegative ("Northern") latitude rotated by two positions
(Spring↔Autumn, Summer↔Winter) — for both `calculateSeason`
implementations, the month-band one of the weather service and the
day-precise one of the environmental service. -/
theorem C6_season_rotation (date : JSDate) (lat lat' : ℚ)
    (hlat : lat < 0) (hlat' : 0 ≤ lat') :
    weatherService.calculateSeason date lat =
      rotateTwoSeasons (weatherService.calculateSeason date lat') ∧
    environmentalService.calculateSeason date lat =
      rotateTwoSeasons (environmentalService.calculateSeason date lat') := by
  have hn : ¬ (lat ≥ 0) := not_le.mpr hlat
  have hp : lat' ≥ 0 := hlat'
  constructor
  · simp only [weatherService.calculateSeason, if_neg hn, if_pos hp]
    split_ifs <;> rfl
  · simp only [environmentalService.calculateSeason, if_neg hn, if_pos hp]
    cases environmentalService.getSeasonForNorthern date.month date.day <;> rfl

/-- Witness for C6: mid-June, latitude −30 against latitude 45. -/
theorem C6_season_rotation_witness :
    weatherService.calculateSeason { month := 5, day := 15 } (-30) =
      rotateTwoSeasons (weatherService.calculateSeason { month := 5, day := 15 } 45) ∧
    environmentalService.calculateSeason { month := 5, day := 15 } (-30) =
      rotateTwoSeasons
        (environmentalService.calculateSeason { month := 5, day := 15 } 45) :=
  C6_season_rotation { month := 5, day := 15 } (-30) 45 (by norm_num) (by norm_num)

/-- C8: with every other field fixed, flipping `precipitation` from false
to true never decreases `getWeatherScore`, and moving the location type
from Regular to Castle never decreases `getLocationScore`. -/
theorem C8_monotonicity (w : WeatherData) :
    getWeatherScore { w with precipitation := false } ≤
      getWeatherScore { w with precipitation := true } ∧
    getLocationScore LocationType.regular ≤ getLocationScore LocationType.castle := by
  constructor
  · simp only [getWeatherScore]
    split_ifs <;>
      exact min_le_min le_rfl (by linarith)
  · norm_num [getLocationScore, jsFalsyOr, LOCATION_SCORES]

/-- C9: there is a valid input on which the four breakdown contributions
(each `round(roundedRawScore · weight)`, rounded independently) sum to a
value different from the overall score (which rounds the weighted sum
once): on the all-baseline Scenario 1 input the contributions are
`4 + 3 + 3 + 2 = 12` while the overall score is 11. -/
theorem C9_breakdown_sum_mismatch :
    ∃ (location : Location) (environmental : EnvironmentalFactors) (now : ℤ),
      ((generateFactorBreakdown location environmental
          (calculateHauntedRating location environmental now)).map
        (fun b => b.contribution)).sum = 12 ∧
      (calculateHauntedRating location environmental now).overallScore = 11 ∧
      ((generateFactorBreakdown location environmental
          (calculateHauntedRating location environmental now)).map
        (fun b => b.contribution)).sum ≠
        (calculateHauntedRating location environmental now).overallScore := by
  refine ⟨scenario1Location, scenario1Env, 0, ?_, ?_, ?_⟩ <;>
    norm_num [generateFactorBreakdown, calculateHauntedRating, getLocationScore,
      getWeatherScore, getTimeScore, getSeasonScore, jsRound, jsFalsyOr,
      LOCATION_SCORES, WEATHER_SCORES, SEASON_SCORES, FACTOR_WEIGHTS_LOCATION,
      FACTOR_WEIGHTS_WEATHER, FACTOR_WEIGHTS_TIME, FACTOR_WEIGHTS_SEASON,
      scenario1Location, scenario1Env]

/-- C10: `getTimeScore` is total on all integer hours; every hour below 0
or at least 24 falls through to the late-evening band (a negative hour
satisfies `hour < 1`, an hour ≥ 24 satisfies `hour ≥ 21`) and scores 80. -/
theorem C10_out_of_range_hours (t : TimeData) (h : t.hour < 0 ∨ 24 ≤ t.hour) :
    getTimeScore t = 80 := by
  simp only [getTimeScore]
  split_ifs <;> first | rfl | (exfalso; omega)

/-- Witness for C10 at hour −5. -/
theorem C10_out_of_range_hours_witness :
    getTimeScore { hour := -5, isNighttime := true, timezone := "UTC+0" } = 80 :=
  C10_out_of_range_hours { hour := -5, isNighttime := true, timezone := "UTC+0" }
    (Or.inl (by norm_num))

/-- C7: if a session is active (present in the registry, with an
`onRatingUpdate` callback) and the fallback cache holds a non-expired
rating under the session's cache key, then a failing refresh tick invokes
`onRatingUpdate` with exactly the cached rating, never invokes `onError`,
and leaves the session registry untouched (the timer is not torn down). -/
theorem realTimeService.C7_refresh_failure_fallback (st : realTimeService.RTState)
    (sessionKey : String) (message : String) (now : ℤ)
    (session : realTimeService.ActiveSession)
    (entry : realTimeService.CacheEntry HauntedRating)
    (hsession : realTimeService.mapGet st.activeSessions sessionKey = some session)
    (hcb : session.hasOnRatingUpdate = true)
    (hcache : realTimeService.mapGet st.ratingCache
      (realTimeService.getCacheKey session.location) = some entry)
    (hvalid : now < entry.expiresAt) :
    (realTimeService.refreshSessionData st sessionKey
        (realTimeService.RefreshOutcome.failure message) now).2 =
      [realTimeService.CallbackEvent.onRatingUpdate entry.data] ∧
    (∀ m, realTimeService.CallbackEvent.onError m ∉
      (realTimeService.refreshSessionData st sessionKey
        (realTimeService.RefreshOutcome.failure message) now).2) ∧
    (realTimeService.refreshSessionData st sessionKey
        (realTimeService.RefreshOutcome.failure message) now).1.activeSessions =
      st.activeSessions := by
  have hv : realTimeService.isCacheValid now entry := hvalid
  simp only [realTimeService.refreshSessionData, hsession,
    realTimeService.getCachedData, hcache, if_pos hv, hcb]
  simp

/-- A last-good rating for the C7 witness state. -/
def witnessRating : HauntedRating :=
  { overallScore := 50
    factors := { locationScore := 50, weatherScore := 50, timeScore := 50, seasonScore := 50 }
    breakdown := []
    calculatedAt := 0 }

/-- The cache entry holding `witnessRating`, expiring at t = 1000. -/
def witnessEntry : realTimeService.CacheEntry HauntedRating :=
  { data := witnessRating, timestamp := 0, expiresAt := 1000 }

/-- An active session over the Scenario 1 location with both callbacks. -/
def witnessSession : realTimeService.ActiveSession :=
  { location := scenario1Location
    lastUpdate := 0
    hasRefreshTimer := true
    hasOnRatingUpdate := true
    hasOnEnvironmentalUpdate := false
    hasOnError := true }

/-- A service state with that one session and its cached rating. -/
def witnessState : realTimeService.RTState :=
  { activeSessions := [("sessionkey1", witnessSession)]
    ratingCache := [(realTimeService.getCacheKey scenario1Location, witnessEntry)] }

/-- Witness for C7: the concrete failing tick at t = 5 serves the cached
rating, emits no error, and keeps the session registered. -/
theorem realTimeService.C7_refresh_failure_fallback_witness :
    (realTimeService.refreshSessionData witnessState "sessionkey1"
        (realTimeService.RefreshOutcome.failure "network down") 5).2 =
      [realTimeService.CallbackEvent.onRatingUpdate witnessEntry.data] ∧
    (∀ m, realTimeService.CallbackEvent.onError m ∉
      (realTimeService.refreshSessionData witnessState "sessionkey1"
        (realTimeService.RefreshOutcome.failure "network down") 5).2) ∧
    (realTimeService.refreshSessionData witnessState "sessionkey1"
        (realTimeService.RefreshOutcome.failure "network down") 5).1.activeSessions =
      witnessState.activeSessions :=
  realTimeService.C7_refresh_failure_fallback witnessState "sessionkey1"
    "network down" 5 witnessSession witnessEntry
    (by simp [witnessState, realTimeService.mapGet])
    (by simp [witnessSession])
    (by simp [witnessState, witnessSession, realTimeService.mapGet])
    (by norm_num [witnessEntry])
